import Mathlib

/-!
Shallow embedding of `src/mutex.py` (class `NoSQLTasks`), a client-side mutex
manager over a NoSQL table that offers conditional row writes.

Translation conventions:
* a table row is `Row` (fields `score`, `owner`, `body`, `version`); the store
  is an association list `Table` threaded explicitly through every call;
* every read of `datetime.now()` becomes an explicit `now : Int` parameter
  (microseconds, as in the source);
* version tokens (etags) are modelled as `Nat`; the store hands out
  `version + 1` on a successful conditional update and `0` on creation;
* the opaque `body` dict and the `owner` string are modelled as
  `Option String` (`none` = the Python `None`);
* `shuffle` in `_get_stale` permutes the result uniformly at random; it is
  omitted here, so `get_stale` returns the candidates in table order — every
  membership statement below is invariant under permutation;
* the infinite generator `_stale_generator` and the blocking loop in `acquire`
  are given fuel parameters; a result of `none` at the outer level means the
  fuel ran out while the code was still looping (i.e. the call has not
  returned), while `some r` means the Python call returned `r`.
-/

/-- One lock row of the NoSQL table: `key` is the association-list key,
the value carries `score` (lease state), `owner`, `body` and the
store-assigned version token (etag). -/
structure Row where
  score : Int
  owner : Option String
  body : Option String
  version : Nat
deriving DecidableEq

/-- The remote table: an association list from lock key to row. -/
abbrev Table := List (String × Row)

/-- Modelled from the spec: the store's point lookup
`get_row(table, key) → (value, version) | absent` (section 6); the OCI client
itself is not part of this repository. -/
def lookupRow (t : Table) (k : String) : Option Row :=
  match t.find? (fun p => decide (p.1 = k)) with
  | some p => some p.2
  | none => none

/-- The value dict sent in an `update_row` call: `key` is passed separately,
`score` is always present, `owner`/`body` only when the caller supplied them
(`none` = field absent from the dict). -/
structure WriteValue where
  score : Int
  owner : Option String
  body : Option String
deriving DecidableEq

/-- A field of the written row: the supplied value when present, else the
stored one (the spec's partial-update semantics: "other fields retain
existing store values"). -/
def mergeField (newField old : Option String) : Option String :=
  match newField with
  | some x => some x
  | none => old

/-- Modelled from the spec: the store's conditional update
`put_row(..., mode: update-if-present, expected_version)` (section 6) —
accepted only if the row exists and its current version token equals the
caller's `if_match`; on success a new version token is returned and the
supplied fields overwrite the stored ones. -/
def update_row_if_present (t : Table) (k : String) (v : WriteValue)
    (if_match : Nat) : Option Nat × Table :=
  match lookupRow t k with
  | none => (none, t)
  | some r =>
    if r.version = if_match then
      let r2 : Row :=
        { score := v.score, owner := mergeField v.owner r.owner,
          body := mergeField v.body r.body, version := r.version + 1 }
      (some (r.version + 1), t.map (fun p => if p.1 = k then (k, r2) else p))
    else (none, t)

/-- Modelled from the spec: the store's conditional creation
`put_row(..., mode: create-if-absent)` (section 6) — succeeds only if the row
is absent, returning the fresh row's version token. -/
def update_row_if_absent (t : Table) (k : String) (v : WriteValue) :
    Option Nat × Table :=
  match lookupRow t k with
  | some _ => (none, t)
  | none => (some 0, (k, ⟨v.score, v.owner, v.body, 0⟩) :: t)

/-- Modelled from the spec: `is_expired(score, now, timeout_us)` of
section 4.1 — `score >= 0 && score < now - timeout_us`; this pure function is
stated in the spec but inlined (partially) in the source. -/
def is_expired (score now timeout_us : Int) : Bool :=
  decide (0 ≤ score) && decide (score < now - timeout_us)

/-- The cold-path lease check of `_instant_acquire_one` (src/mutex.py line
157): the stored score blocks acquisition when `old_score > score - timeout`,
where `score` is the new score about to be written (the current timestamp on
the acquire path). -/
def lease_blocks (old_score new_score timeout : Int) : Bool :=
  decide (old_score > new_score - timeout)

/-- A lock handle as returned to callers: `(key, version, body)`. -/
abbrev LockHandle := String × Nat × Option String

/-- `_instant_acquire_one` (src/mutex.py lines 121-179): build the write
value; on the cold path (`etag = none`) read the row, fail on absence, capture
its etag and stored body (the local `body` is rebound to the stored one), and
fail without writing when `lease_blocks`; then perform the conditional
update, returning `(lock_id, new_version, body)` on success and `none` on any
conflict. -/
def instant_acquire_one (t : Table) (timeout now : Int) (lock_id : String)
    (etag : Option Nat) (score : Option Int) (owner body : Option String) :
    Option LockHandle × Table :=
  let score := match score with | some s => s | none => now
  let value : WriteValue := { score := score, owner := owner, body := body }
  match etag with
  | some e =>
    match update_row_if_present t lock_id value e with
    | (some v, t2) => (some (lock_id, v, body), t2)
    | (none, t2) => (none, t2)
  | none =>
    match lookupRow t lock_id with
    | none => (none, t)
    | some r =>
      if lease_blocks r.score score timeout then (none, t)
      else
        match update_row_if_present t lock_id value r.version with
        | (some v, t2) => (some (lock_id, v, r.body), t2)
        | (none, t2) => (none, t2)

/-- The score-range predicate of `_get_stale`'s SQL query (src/mutex.py lines
105-111): `score >= start AND score < stop` with `start = 0` if unattended
rows are included else `1`, and `stop = now - timeout` if expired rows are
included else `1`. -/
def scan_match (include_unattended include_expired : Bool)
    (now timeout score : Int) : Bool :=
  let start : Int := if include_unattended then 0 else 1
  let stop : Int := if include_expired then now - timeout else 1
  decide (start ≤ score) && decide (score < stop)

/-- The key filter appended to `_get_stale`'s SQL query. Source line 103 reads
`lock_id_mask = " AND key = \x7b\x7d".format(lock_id_mask) if lock_id_mask is
None else ""`: the conditional is inverted, so when the mask is `None` the
query gets the filter `key = "None"` (Python formats `None` as the string
`None`), and when a mask is supplied no key filter is appended at all. -/
def mask_ok (lock_id_mask : Option String) (k : String) : Bool :=
  match lock_id_mask with
  | none => decide (k = "None")
  | some _ => true

/-- `_get_stale` (src/mutex.py lines 89-119): empty when both include flags
are off; otherwise the keys of all rows matching the score range and the key
filter. The trailing `shuffle` permutes the list and is omitted. -/
def get_stale (t : Table) (now timeout : Int)
    (include_unattended include_expired : Bool)
    (lock_id_mask : Option String) : List String :=
  if !(include_unattended || include_expired) then []
  else
    (t.filter (fun p =>
        scan_match include_unattended include_expired now timeout p.2.score
          && mask_ok lock_id_mask p.1)).map (fun p => p.1)

/-- `create` (src/mutex.py lines 29-60): conditional creation with
`score = 0` when `auto_acquire` is false, else the current timestamp; returns
the handle on success, `none` if the row already exists. -/
def create (t : Table) (now : Int) (lock_id : String)
    (owner body : Option String) (auto_acquire : Bool) :
    Option LockHandle × Table :=
  let score : Int := if auto_acquire then now else 0
  match update_row_if_absent t lock_id ⟨score, owner, body⟩ with
  | (some v, t2) => (some (lock_id, v, body), t2)
  | (none, t2) => (none, t2)

/-- Owner resolution common to `acquire`/`update`/`release`/`delete`
(`owner = self._owner if owner is None else owner`). -/
def resolve_owner (default_owner owner : Option String) : Option String :=
  match owner with
  | none => default_owner
  | some o => some o

/-- `release` (src/mutex.py lines 217-229): `_instant_acquire_one` with the
handle's etag and `score = 1`. -/
def release (t : Table) (timeout now : Int) (default_owner : Option String)
    (lock : String × Nat) (owner body : Option String) :
    Option LockHandle × Table :=
  instant_acquire_one t timeout now lock.1 (some lock.2) (some 1)
    (resolve_owner default_owner owner) body

/-- `delete` (src/mutex.py lines 231-243): `_instant_acquire_one` with the
handle's etag and `score = -1`. -/
def deleteLock (t : Table) (timeout now : Int) (default_owner : Option String)
    (lock : String × Nat) (owner body : Option String) :
    Option LockHandle × Table :=
  instant_acquire_one t timeout now lock.1 (some lock.2) (some (-1))
    (resolve_owner default_owner owner) body

/-- `_stale_generator` (src/mutex.py lines 62-87), modelled as a fuel-indexed
pull on a stream of `_get_stale` results. Because `_get_stale` reads the
mutable remote table and the wall clock, its successive return values are an
oracle `scans : Nat → List String` (call index ↦ returned keys; the
refresh-triggered early rescan only changes which suffix of a scan is
dropped, which the oracle already ranges over). The generator state is
`(i, pending)`: `i` the index of the next scan to issue, `pending` the
unconsumed keys of the current one. A result of `none` means the generator
looped through `fuel` empty scans without yielding — i.e. `next()` has not
returned. -/
def gen_next (scans : Nat → List String) (fuel : Nat) (s : Nat × List String) :
    Option (String × (Nat × List String)) :=
  match fuel, s with
  | 0, _ => none
  | _ + 1, (i, x :: rest) => some (x, (i, rest))
  | fuel2 + 1, (i, []) => gen_next scans fuel2 (i + 1, scans i)

/-- The blocking loop of `acquire` (src/mutex.py lines 193-201):
`while timeout == 0 or start + timeout > now(): lock = next(generator);
try acquire it; on success return`. `start` is the wall clock sampled at
entry, `clock n` the wall clock at the `n`-th loop test, and `tries n` the
outcome of `_instant_acquire_one` on the `n`-th candidate (the remote table's
concurrent evolution is folded into this oracle). `gen_fuel` bounds each
`next()` call, `fuel` the number of loop iterations; outer `none` = still
looping / blocked, `some none` = the Python call returned `None`,
`some (some h)` = it returned the handle `h`. -/
def acquire_loop (scans : Nat → List String) (tries : Nat → Option LockHandle)
    (clock : Nat → Int) (start timeout : Int) (gen_fuel fuel n : Nat)
    (s : Nat × List String) : Option (Option LockHandle) :=
  match fuel with
  | 0 => none
  | fuel2 + 1 =>
    if timeout = 0 ∨ start + timeout > clock n then
      match gen_next scans gen_fuel s with
      | none => none
      | some (_, s2) =>
        match tries n with
        | some h => some (some h)
        | none => acquire_loop scans tries clock start timeout gen_fuel fuel2
            (n + 1) s2
    else some none

/-- Claim C1 (code_bug): the spec and the source's own docstring say a
supplied `lock_id_mask` restricts the scan to that exact key and no mask
leaves it unrestricted; the inverted conditional on src/mutex.py line 103
does the opposite. Failing input: a table holding only the stale row `"b"`
scanned with mask `"a"` still yields `"b"`, while the same table scanned
with no mask yields nothing (the filter `key = "None"` excludes it). -/
theorem C1_mask_filter_inverted :
    get_stale [("b", ⟨0, none, none, 0⟩)] 10 1 true true (some "a") = ["b"]
    ∧ ("b" : String) ≠ "a"
    ∧ get_stale [("b", ⟨0, none, none, 0⟩)] 10 1 true true none = [] := by
  decide

/-- Claim C2, counterexample: a present row with `score = -1` (deleted) does
not satisfy `is_expired`, yet the cold path writes it anyway — at
`now = 10`, `timeout = 1` the cold acquire on the deleted row succeeds,
returning a handle and rewriting the row (score becomes `now`, version
bumps). -/
theorem C2_counterexample :
    is_expired (-1) 10 1 = false ∧
    instant_acquire_one [("k", ⟨-1, none, none, 5⟩)] 1 10 "k" none none none none
      = (some ("k", 6, none), [("k", ⟨10, none, none, 6⟩)]) := by
  decide

/-- Claim C2, amended: on a cold `try_acquire` (no etag) an absent row gives
`none`; a present row gives `none` with no conditional write attempted when
its stored score is live (`old_score > now - timeout`) — the gate omits the
`score >= 0` half of `is_expired`, so rows with negative score (deleted,
`-1`) pass it and do reach the conditional write whenever
`now - timeout > -1`. -/
theorem C2_cold_gate_upper_bound_only :
    ∀ (t : Table) (timeout now : Int) (lock_id : String) (owner body : Option String),
    (lookupRow t lock_id = none →
      instant_acquire_one t timeout now lock_id none none owner body = (none, t)) ∧
    (∀ r : Row, lookupRow t lock_id = some r → r.score > now - timeout →
      instant_acquire_one t timeout now lock_id none none owner body = (none, t)) := by
  intro t timeout now lock_id owner body
  constructor
  · intro h
    simp [instant_acquire_one, h]
  · intro r h hs
    simp [instant_acquire_one, h, lease_blocks, hs]

/-- Witness for C2: the cold path at a concrete absent row and at a concrete
live row (`score = 100`, `now = 10`, `timeout = 1`) returns `none` and leaves
the table unchanged. -/
theorem C2_cold_gate_upper_bound_only_witness :
    instant_acquire_one [] 1 10 "z" none none none none = (none, []) ∧
    instant_acquire_one [("k", (⟨100, none, none, 0⟩ : Row))] 1 10 "k" none none none none
      = (none, [("k", (⟨100, none, none, 0⟩ : Row))]) :=
  ⟨(C2_cold_gate_upper_bound_only [] 1 10 "z" none none).1 (by decide),
   (C2_cold_gate_upper_bound_only [("k", ⟨100, none, none, 0⟩)] 1 10 "k" none none).2
     ⟨100, none, none, 0⟩ (by decide) (by decide)⟩

/-- Claim C3 (confirmed): under every combination of the include flags and
every current time, a score of `-1` never satisfies the scan's range
predicate; and every key yielded by `_get_stale` comes from a row whose score
does satisfy it — so a deleted row is never yielded as a candidate,
regardless of elapsed time. -/
theorem C3_deleted_never_scanned :
    ∀ (u e : Bool) (now timeout : Int),
      scan_match u e now timeout (-1) = false ∧
      ∀ (t : Table) (mask : Option String) (k : String),
        k ∈ get_stale t now timeout u e mask →
        ∃ r : Row, (k, r) ∈ t ∧ scan_match u e now timeout r.score = true := by
  intro u e now timeout
  constructor
  · cases u <;> simp [scan_match]
  · intro t mask k hk
    by_cases hf : !(u || e)
    · simp [get_stale, hf] at hk
    · simp only [get_stale, hf, if_false, Bool.not_eq_true] at hk
      rcases List.mem_map.mp hk with ⟨p, hp, rfl⟩
      rcases List.mem_filter.mp hp with ⟨hpt, hpred⟩
      simp only [Bool.and_eq_true] at hpred
      rcases hpred with ⟨hscan, _⟩
      exact ⟨p.2, hpt, hscan⟩

/-- Witness for C3: at `now = 10`, `timeout = 1` the deleted score fails the
predicate, and the key `"b"` yielded from a concrete one-row table is backed
by a row matching the predicate. -/
theorem C3_witness :
    scan_match true true 10 1 (-1) = false ∧
    ∃ r : Row, ("b", r) ∈ [("b", (⟨0, none, none, 0⟩ : Row))]
      ∧ scan_match true true 10 1 r.score = true :=
  ⟨(C3_deleted_never_scanned true true 10 1).1,
   (C3_deleted_never_scanned true true 10 1).2 [("b", ⟨0, none, none, 0⟩)]
     (some "a") "b" (by decide)⟩

/-- Claim C4, counterexample: a cold `try_acquire` with caller-supplied body
`"B"` on a row storing body `"A"` succeeds, writes `"B"` into the row, yet
returns a handle carrying `"A"` — the stored body is not a fallback but an
unconditional overwrite of the handle's body component. -/
theorem C4_counterexample :
    (instant_acquire_one [("k", ⟨0, none, some "A", 0⟩)] 1 10 "k" none none none
        (some "B")).1 = some ("k", 1, some "A")
    ∧ (some "A" : Option String) ≠ some "B"
    ∧ lookupRow (instant_acquire_one [("k", ⟨0, none, some "A", 0⟩)] 1 10 "k"
        none none none (some "B")).2 "k" = some ⟨10, none, some "B", 1⟩ := by
  decide

/-- Claim C4, amended: the handle returned by a successful `try_acquire`
carries the caller-supplied body (possibly none, with no fallback) when an
etag was supplied, and always the row's previously stored body — even when
the caller supplied one — on the cold path. -/
theorem C4_handle_body_source :
    ∀ (t : Table) (timeout now : Int) (lock_id : String) (e : Nat)
      (score : Option Int) (owner body : Option String),
    (∀ h : LockHandle,
      (instant_acquire_one t timeout now lock_id (some e) score owner body).1 = some h →
      h.2.2 = body) ∧
    (∀ (r : Row) (h : LockHandle), lookupRow t lock_id = some r →
      (instant_acquire_one t timeout now lock_id none score owner body).1 = some h →
      h.2.2 = r.body) := by
  intro t timeout now lock_id e score owner body
  constructor
  · intro h heq
    simp only [instant_acquire_one] at heq
    split at heq
    · simp at heq
      subst heq
      rfl
    · simp at heq
  · intro r h hr heq
    simp only [instant_acquire_one, hr] at heq
    split at heq
    · simp at heq
    · split at heq
      · simp at heq
        subst heq
        rfl
      · simp at heq

/-- Witness for C4: a concrete successful etag-path acquire returns the
caller's body `"B"`, and a concrete successful cold acquire returns the
stored body `"A"`. -/
theorem C4_handle_body_source_witness :
    (("k", 4, some "B") : LockHandle).2.2 = some "B" ∧
    (("k", 1, some "A") : LockHandle).2.2 = some "A" :=
  ⟨(C4_handle_body_source [("k", ⟨0, none, some "A", 3⟩)] 1 10 "k" 3 none none
      (some "B")).1 ("k", 4, some "B") (by decide),
   (C4_handle_body_source [("k", ⟨0, none, some "A", 0⟩)] 1 10 "k" 0 none none
      (some "B")).2 ⟨0, none, some "A", 0⟩ ("k", 1, some "A") (by decide) (by decide)⟩

/-- Claim C5 (confirmed): when the conditional update is rejected by the
store — the row is absent or its current version token differs from the
supplied etag — `try_acquire` returns `none` and leaves the table untouched;
it never faults and never builds a handle from the existing row state. -/
theorem C5_conflict_returns_none :
    ∀ (t : Table) (timeout now : Int) (lock_id : String) (e : Nat)
      (score : Option Int) (owner body : Option String),
    (lookupRow t lock_id = none →
      instant_acquire_one t timeout now lock_id (some e) score owner body = (none, t)) ∧
    (∀ r : Row, lookupRow t lock_id = some r → r.version ≠ e →
      instant_acquire_one t timeout now lock_id (some e) score owner body = (none, t)) := by
  intro t timeout now lock_id e score owner body
  constructor
  · intro h
    simp [instant_acquire_one, update_row_if_present, h]
  · intro r h hne
    simp [instant_acquire_one, update_row_if_present, h, hne]

/-- Witness for C5: a concrete acquire with etag `3` against a row at
version `7` returns `none` and leaves the table unchanged. -/
theorem C5_conflict_returns_none_witness :
    instant_acquire_one [("k", (⟨0, none, none, 7⟩ : Row))] 1 10 "k" (some 3) none none none
      = (none, [("k", (⟨0, none, none, 7⟩ : Row))]) :=
  (C5_conflict_returns_none [("k", ⟨0, none, none, 7⟩)] 1 10 "k" 3 none none none).2
    ⟨0, none, none, 7⟩ (by decide) (by decide)

/-- Claim C6 (confirmed): a held row (`score = ts > 1`) is a valid acquire
candidate — matched by the full scan predicate or accepted by the cold-path
expiry check — exactly when `now ≥ ts + timeout`; in particular it is neither
scanned nor accepted while `now < ts + timeout`. (At the boundary
`now = ts + timeout` only the cold-path check, whose comparison is
non-strict, accepts.) -/
theorem C6_lease_expiry_boundary :
    ∀ ts now timeout : Int, 1 < ts →
      ((scan_match true true now timeout ts = true ∨ lease_blocks ts now timeout = false)
        ↔ ts + timeout ≤ now) := by
  intro ts now timeout h
  simp only [scan_match, lease_blocks, Bool.and_eq_true, decide_eq_true_eq,
    decide_eq_false_iff_not, if_pos]
  constructor
  · rintro (⟨_, h2⟩ | h2) <;> omega
  · intro h2
    right
    omega

/-- Witness for C6: the held score `2` with `timeout = 0` is a candidate at
`now = 5`. -/
theorem C6_lease_expiry_boundary_witness :
    1 < (2 : Int) ∧
    ((scan_match true true 5 0 2 = true ∨ lease_blocks 2 5 0 = false) ↔ (2 : Int) + 0 ≤ 5) :=
  ⟨by decide, C6_lease_expiry_boundary 2 5 0 (by decide)⟩

/-- With `timeout = 0` the loop condition is always true, so `acquire` can
never return `None` (outer `none` = still looping, `some (some h)` = a
successful handle). -/
theorem acquire_loop_timeout_zero
    (scans : Nat → List String) (tries : Nat → Option LockHandle)
    (clock : Nat → Int) (start : Int) (gen_fuel : Nat) :
    ∀ fuel n s, acquire_loop scans tries clock start 0 gen_fuel fuel n s ≠ some none := by
  intro fuel
  induction fuel with
  | zero => intro n s; simp [acquire_loop]
  | succ f ih =>
    intro n s
    simp only [acquire_loop]
    rw [if_pos (Or.inl trivial)]
    rcases hg : gen_next scans gen_fuel s with _ | ⟨x, s2⟩
    · simp
    · rcases ht : tries n with _ | h
      · simpa using ih (n + 1) s2
      · simp

/-- `acquire` returns `None` only at a deadline test between candidate
attempts: some iteration `m` found the clock at or past `start + timeout`
with a nonzero `timeout`, every attempt before it having failed. -/
theorem acquire_loop_none_reason
    (scans : Nat → List String) (tries : Nat → Option LockHandle)
    (clock : Nat → Int) (start timeout : Int) (gen_fuel : Nat) :
    ∀ fuel n s, acquire_loop scans tries clock start timeout gen_fuel fuel n s = some none →
      ∃ m, n ≤ m ∧ timeout ≠ 0 ∧ start + timeout ≤ clock m ∧
        ∀ j, n ≤ j → j < m → tries j = none := by
  intro fuel
  induction fuel with
  | zero => intro n s h; simp [acquire_loop] at h
  | succ f ih =>
    intro n s h
    simp only [acquire_loop] at h
    by_cases hc : timeout = 0 ∨ start + timeout > clock n
    · rw [if_pos hc] at h
      rcases hg : gen_next scans gen_fuel s with _ | ⟨x, s2⟩ <;> rw [hg] at h
      · simp at h
      · rcases ht : tries n with _ | hh <;> rw [ht] at h
        · rcases ih (n + 1) s2 h with ⟨m, hm1, hm2, hm3, hm4⟩
          refine ⟨m, by omega, hm2, hm3, fun j hj1 hj2 => ?_⟩
          by_cases hjn : j = n
          · exact hjn ▸ ht
          · exact hm4 j (by omega) hj2
        · simp at h
    · rw [if_neg hc] at h
      push_neg at hc
      exact ⟨n, le_refl n, hc.1, hc.2,
        fun j hj1 hj2 => absurd (lt_of_le_of_lt hj1 hj2) (lt_irrefl n)⟩

/-- A handle returned by `acquire` is the first successful attempt: every
earlier attempt failed, and the deadline test passed at the successful
iteration. -/
theorem acquire_loop_first_success
    (scans : Nat → List String) (tries : Nat → Option LockHandle)
    (clock : Nat → Int) (start timeout : Int) (gen_fuel : Nat) :
    ∀ fuel n s h, acquire_loop scans tries clock start timeout gen_fuel fuel n s = some (some h) →
      ∃ m, n ≤ m ∧ tries m = some h ∧ (timeout = 0 ∨ start + timeout > clock m) ∧
        ∀ j, n ≤ j → j < m → tries j = none := by
  intro fuel
  induction fuel with
  | zero => intro n s h hh; simp [acquire_loop] at hh
  | succ f ih =>
    intro n s h hh
    simp only [acquire_loop] at hh
    by_cases hc : timeout = 0 ∨ start + timeout > clock n
    · rw [if_pos hc] at hh
      rcases hg : gen_next scans gen_fuel s with _ | ⟨x, s2⟩ <;> rw [hg] at hh
      · simp at hh
      · rcases ht : tries n with _ | h2 <;> rw [ht] at hh
        · rcases ih (n + 1) s2 h hh with ⟨m, hm1, hm2, hm3, hm4⟩
          refine ⟨m, by omega, hm2, hm3, fun j hj1 hj2 => ?_⟩
          by_cases hjn : j = n
          · exact hjn ▸ ht
          · exact hm4 j (by omega) hj2
        · simp at hh
          exact ⟨n, le_refl n, hh ▸ ht, hc,
            fun j hj1 hj2 => absurd (lt_of_le_of_lt hj1 hj2) (lt_irrefl n)⟩
    · rw [if_neg hc] at hh
      simp at hh

/-- Claim C7 (confirmed): against the wall-clock deadline `start + timeout`
recorded at entry — with `timeout = 0` the deadline test is skipped and the
loop never returns `None`; it returns `None` only when a between-attempts
deadline test observes the clock at or past the deadline after every earlier
attempt failed; and a returned handle is the first successful attempt. -/
theorem C7_acquire_deadline :
    ∀ (scans : Nat → List String) (tries : Nat → Option LockHandle)
      (clock : Nat → Int) (start timeout : Int) (gen_fuel : Nat),
    (timeout = 0 → ∀ fuel n s,
      acquire_loop scans tries clock start timeout gen_fuel fuel n s ≠ some none) ∧
    (∀ fuel n s,
      acquire_loop scans tries clock start timeout gen_fuel fuel n s = some none →
      ∃ m, n ≤ m ∧ timeout ≠ 0 ∧ start + timeout ≤ clock m ∧
        ∀ j, n ≤ j → j < m → tries j = none) ∧
    (∀ fuel n s h,
      acquire_loop scans tries clock start timeout gen_fuel fuel n s = some (some h) →
      ∃ m, n ≤ m ∧ tries m = some h ∧ (timeout = 0 ∨ start + timeout > clock m) ∧
        ∀ j, n ≤ j → j < m → tries j = none) := by
  intro scans tries clock start timeout gen_fuel
  exact ⟨fun h0 => h0 ▸ acquire_loop_timeout_zero scans tries clock start gen_fuel,
    acquire_loop_none_reason scans tries clock start timeout gen_fuel,
    acquire_loop_first_success scans tries clock start timeout gen_fuel⟩

/-- Witness for C7: with `timeout = 0`, a concrete run over constant
single-candidate scans and always-failing attempts is never `some none`. -/
theorem C7_acquire_deadline_witness :
    acquire_loop (fun _ => ["k"]) (fun _ => none) (fun _ => (0 : Int)) 0 0 3 4 0 (0, [])
      ≠ some none :=
  (C7_acquire_deadline (fun _ => ["k"]) (fun _ => none) (fun _ => (0 : Int)) 0 0 3).1
    rfl 4 0 (0, [])

/-- Claim C8, counterexample: the claim's predicate `1 < now - timeout` does
not hold for every `timeout ≥ 0` — at `now = 0`, `timeout = 0` it fails, the
released score `1` matches neither the scan predicate nor the cold-path
check. -/
theorem C8_counterexample :
    (0 : Int) ≤ 0 ∧ ¬((1 : Int) < 0 - 0) ∧ scan_match true true 0 0 1 = false ∧
    lease_blocks 1 0 0 = true := by
  decide

/-- Claim C8, amended: `release` performs `try_acquire` with the handle's
etag and `score = 1`; and whenever `now - timeout > 1` — which every
realistic microsecond clock reading satisfies, though not literally every
`timeout ≥ 0` — the released score `1` matches the scan predicate and passes
the cold-path check, so the row is immediately re-acquirable. -/
theorem C8_release_sets_sentinel :
    ∀ (t : Table) (timeout now : Int) (d : Option String) (lock : String × Nat)
      (owner body : Option String),
    release t timeout now d lock owner body
      = instant_acquire_one t timeout now lock.1 (some lock.2) (some 1)
          (resolve_owner d owner) body ∧
    (1 < now - timeout →
      scan_match true true now timeout 1 = true ∧ lease_blocks 1 now timeout = false) := by
  intro t timeout now d lock owner body
  refine ⟨rfl, fun h => ⟨?_, ?_⟩⟩ <;> simp [scan_match, lease_blocks] <;> omega

/-- Witness for C8: at `now = 100`, `timeout = 3` a released row is a
candidate. -/
theorem C8_release_sets_sentinel_witness :
    (1 : Int) < 100 - 3 ∧
    (scan_match true true 100 3 1 = true ∧ lease_blocks 1 100 3 = false) :=
  ⟨by decide, (C8_release_sets_sentinel [] 3 100 none ("k", 0) none none).2 (by decide)⟩

/-- Claim C9 (confirmed): `create` on an absent row writes score `0` with the
default `auto_acquire = false` and score `now` (the current timestamp) with
`auto_acquire = true`; on a present row it returns `none` and leaves the
table unmodified; and a row born with score `now` is not an acquire candidate
(cold check blocks, scan predicate fails) while `now2 < now + timeout`. -/
theorem C9_create_auto_acquire :
    ∀ (t : Table) (now : Int) (lock_id : String) (owner body : Option String),
    (lookupRow t lock_id = none →
      create t now lock_id owner body false
        = (some (lock_id, 0, body), (lock_id, ⟨0, owner, body, 0⟩) :: t) ∧
      create t now lock_id owner body true
        = (some (lock_id, 0, body), (lock_id, ⟨now, owner, body, 0⟩) :: t)) ∧
    (∀ (r : Row) (a : Bool), lookupRow t lock_id = some r →
      create t now lock_id owner body a = (none, t)) ∧
    (∀ now2 timeout : Int, now2 < now + timeout →
      lease_blocks now now2 timeout = true ∧ scan_match true true now2 timeout now = false) := by
  intro t now lock_id owner body
  refine ⟨fun h => ⟨?_, ?_⟩, fun r a h => ?_, fun now2 timeout h => ⟨?_, ?_⟩⟩
  · simp [create, update_row_if_absent, h]
  · simp [create, update_row_if_absent, h]
  · simp [create, update_row_if_absent, h]
  · simp only [lease_blocks, decide_eq_true_eq]
    omega
  · have h2 : ¬ (now < now2 - timeout) := by omega
    simp [scan_match, h2]

/-- Witness for C9: concrete creations at `now = 42` with and without
`auto_acquire`, a no-op second creation, and the freshly-held row blocked at
`now2 = 50` with `timeout = 10`. -/
theorem C9_create_auto_acquire_witness :
    create [] 42 "k" (some "o") (some "b") false
      = (some ("k", 0, some "b"), [("k", ⟨0, some "o", some "b", 0⟩)]) ∧
    create [] 42 "k" (some "o") (some "b") true
      = (some ("k", 0, some "b"), [("k", ⟨42, some "o", some "b", 0⟩)]) ∧
    create [("k", (⟨0, none, none, 0⟩ : Row))] 42 "k" none none true
      = (none, [("k", (⟨0, none, none, 0⟩ : Row))]) ∧
    lease_blocks 42 50 10 = true ∧ scan_match true true 50 10 42 = false :=
  ⟨((C9_create_auto_acquire [] 42 "k" (some "o") (some "b")).1 (by decide)).1,
   ((C9_create_auto_acquire [] 42 "k" (some "o") (some "b")).1 (by decide)).2,
   (C9_create_auto_acquire [("k", ⟨0, none, none, 0⟩)] 42 "k" none none).2.1
     ⟨0, none, none, 0⟩ true (by decide),
   (C9_create_auto_acquire [] 42 "k" none none).2.2 50 10 (by decide)⟩

/-- Claim C10 (confirmed): when every `_get_stale` call returns an empty
collection the generator re-scans forever without yielding (`gen_next` is
`none` for every fuel), and `acquire`, its entry deadline test having passed,
blocks inside `next(generator)`: for every fuel the loop result is the outer
`none` (still running), never the returned `None` — even though later clock
values may lie far past the deadline. -/
theorem C10_empty_scans_block :
    ∀ scans : Nat → List String, (∀ i, scans i = []) →
    (∀ gfuel i, gen_next scans gfuel (i, []) = none) ∧
    (∀ (tries : Nat → Option LockHandle) (clock : Nat → Int) (start timeout : Int)
       (gfuel fuel n i : Nat), (timeout = 0 ∨ start + timeout > clock n) →
       acquire_loop scans tries clock start timeout gfuel fuel n (i, []) = none) := by
  intro scans hs
  have hgen : ∀ gfuel i, gen_next scans gfuel (i, []) = none := by
    intro gfuel
    induction gfuel with
    | zero => intro i; rfl
    | succ g ih =>
      intro i
      show gen_next scans g (i + 1, scans i) = none
      rw [hs i]
      exact ih (i + 1)
  refine ⟨hgen, fun tries clock start timeout gfuel fuel n i hc => ?_⟩
  cases fuel with
  | zero => rfl
  | succ f =>
    simp only [acquire_loop]
    rw [if_pos hc, hgen gfuel i]

/-- Witness for C10: with constantly-empty scans, a concrete positive
`timeout = 5` and an entry clock before the deadline, the generator yields
nothing and the loop never returns. -/
theorem C10_empty_scans_block_witness :
    gen_next (fun _ => []) 5 (0, []) = none ∧
    acquire_loop (fun _ => []) (fun _ => none) (fun _ => (0 : Int)) 0 5 3 4 0 (0, []) = none :=
  ⟨(C10_empty_scans_block (fun _ => []) (fun _ => rfl)).1 5 0,
   (C10_empty_scans_block (fun _ => []) (fun _ => rfl)).2 (fun _ => none) (fun _ => (0 : Int))
     0 5 3 4 0 0 (by decide)⟩
